import Mathlib

/-!
Verification of the Permissions-As-Data authorization service.

Shallow embedding of the Python source:
  - `app/services/authorization.py` (role expansion, ABAC check, the
    evaluator loop inside `authorize_request`, cache lookup, auditing),
  - `app/crud/crud.py` (`create_role`, `create_policy`, `activate_policy`,
    `create_audit_log`, `get_role_by_name`, `get_active_policy`),
  - `app/api/v1/routes/management.py` (`activate_policy_version_api`).

The SQLAlchemy store is modelled as explicit lists of rows with an
auto-increment counter per table; the module-level `ACTIVE_POLICY_CACHE`
slot is the `cache` field of `EngineState`.  JSON scalar values (the spec
restricts subject/resource attribute values to scalars) are the `Value`
type; Python's `==` on those scalars is `pyEq` (`True == 1` in Python).
-/

namespace PermissionsAsData

/-- Decidable equality on `Except`, used to evaluate results of fallible
operations on concrete inputs. -/
instance {ε α : Type} [DecidableEq ε] [DecidableEq α] : DecidableEq (Except ε α) := fun x y =>
  match x, y with
  | Except.error a, Except.error b =>
    if h : a = b then Decidable.isTrue (by rw [h])
    else Decidable.isFalse (by intro hc; cases hc; exact h rfl)
  | Except.ok a, Except.ok b =>
    if h : a = b then Decidable.isTrue (by rw [h])
    else Decidable.isFalse (by intro hc; cases hc; exact h rfl)
  | Except.error _, Except.ok _ => Decidable.isFalse (by intro hc; cases hc)
  | Except.ok _, Except.error _ => Decidable.isFalse (by intro hc; cases hc)

/-- Scalar JSON values, as they appear in subject/resource attribute maps
and in rule fields.  `null` also stands for Python `None`, which is what
`dict.get` returns for a missing key. -/
inductive Value where
  | null : Value
  | bool : Bool → Value
  | int : Int → Value
  | str : String → Value
deriving DecidableEq, Repr

/-- Python `==` on scalar values: `None == None`, `True == 1`, `False == 0`,
numbers by value, strings by content; different kinds otherwise unequal. -/
def pyEq : Value → Value → Bool
  | Value.null, Value.null => true
  | Value.bool a, Value.bool b => a = b
  | Value.bool a, Value.int n => (if a then (1 : Int) else 0) = n
  | Value.int n, Value.bool a => n = (if a then (1 : Int) else 0)
  | Value.int m, Value.int n => m = n
  | Value.str s, Value.str t => s = t
  | _, _ => false

/-- Python `str()` of a scalar value, as used by f-string interpolation. -/
def pyStr : Value → String
  | Value.null => "None"
  | Value.bool true => "True"
  | Value.bool false => "False"
  | Value.int n => toString n
  | Value.str s => s

/-- A Python `dict` with string keys and scalar values, in insertion
order (Python dicts have no duplicate keys). -/
abbrev Dict : Type := List (String × Value)

/-- `d.get(k)` returning `Option`: the first binding of `k`, if any. -/
def dictLookup (d : Dict) (k : String) : Option Value :=
  (d.find? (fun kv => kv.1 = k)).map (fun kv => kv.2)

/-- Python `d.get(k, default)`. -/
def dictGetD (d : Dict) (k : String) (default : Value) : Value :=
  (dictLookup d k).getD default

/-- The single-quote character, for Python `repr` of strings. -/
def quoteChar : String := String.singleton (Char.ofNat 39)

/-- Opening brace character of a Python dict rendering. -/
def lbrace : String := String.singleton (Char.ofNat 123)

/-- Closing brace character of a Python dict rendering. -/
def rbrace : String := String.singleton (Char.ofNat 125)

/-- Python `repr` of a scalar value (`str(dict)` uses `repr` on entries). -/
def pyRepr : Value → String
  | Value.str s => quoteChar ++ s ++ quoteChar
  | v => pyStr v

/-- Python `str()` of a dict, e.g. a subject or resource map, as used when
rendering audit-log fields (`str(request.subject)`). -/
def pyStrDict (d : Dict) : String :=
  lbrace ++
    String.intercalate ", "
      (d.map (fun kv => pyRepr (Value.str kv.1) ++ ": " ++ pyRepr kv.2)) ++
  rbrace

/-- A rule mapping inside `Policy.content.rules`.  The evaluator reads the
keys `role`, `action`, `effect` (via `rule.get(k)`, so an absent key reads
as Python `None` = `Value.null`) and `resource_match` (via
`rule.get("resource_match", {})`, so absent reads as the empty map). -/
structure Rule where
  role : Value
  action : Value
  effect : Value
  resource_match : Dict
deriving DecidableEq, Repr

/-- `check_abac_conditions` from `app/services/authorization.py`: an empty
condition map matches everything; otherwise every required pair `(k, v)`
must satisfy `request_resource.get(k) == v`, where `.get` yields `None`
for a missing key. -/
def check_abac_conditions (rule_resource_conditions : Dict) (request_resource : Dict) : Bool :=
  if rule_resource_conditions = ([] : Dict) then
    true
  else
    rule_resource_conditions.all
      (fun kv => pyEq (dictGetD request_resource kv.1 Value.null) kv.2)

/-- The reason string built on a full match:
`f"Matched Rule #{i} (Role: {rule.get('role')}, Action: {rule.get('action')})."` -/
def matchedReason (i : Nat) (r : Rule) : String :=
  "Matched Rule #" ++ toString i ++ " (Role: " ++ pyStr r.role ++
    ", Action: " ++ pyStr r.action ++ ")."

/-- The implicit-deny reason string. -/
def implicitDenyReason : String := "Implicit Deny: No matching rule found."

/-- The no-active-policy reason string. -/
def noPolicyReason : String := "System Error: No active policy found."

/-- The evaluator loop of `authorize_request` (first-match-wins), at rule
index `i`.  The three `continue` guards mirror the source: skip when
`rule.get("role") not in user_roles_list and rule.get("role") != "*"`,
skip when `rule.get("action") != request.action and rule.get("action") != "*"`,
and on a passing ABAC check stop with
`decision := (rule.get("effect") == "allow")` and the matched reason. -/
def evalRulesFrom (user_roles_list : List Value) (action : String) (resource : Dict) :
    Nat → List Rule → Bool × String
  | _, [] => (false, implicitDenyReason)
  | i, r :: rs =>
    if !(user_roles_list.any (fun u => pyEq r.role u)) && !(pyEq r.role (Value.str "*")) then
      evalRulesFrom user_roles_list action resource (i + 1) rs
    else if !(pyEq r.action (Value.str action)) && !(pyEq r.action (Value.str "*")) then
      evalRulesFrom user_roles_list action resource (i + 1) rs
    else if check_abac_conditions r.resource_match resource then
      (pyEq r.effect (Value.str "allow"), matchedReason i r)
    else
      evalRulesFrom user_roles_list action resource (i + 1) rs

/-- The full evaluation of a rule list, starting at index 0 with the
defaults `decision = False`, `reason = implicit deny`. -/
def evalRules (user_roles_list : List Value) (action : String) (resource : Dict)
    (rules : List Rule) : Bool × String :=
  evalRulesFrom user_roles_list action resource 0 rules

/-- A Python runtime error raised on the decision path. -/
inductive PyError where
  | typeError : PyError
  | attributeError : PyError
deriving DecidableEq, Repr

/-- The JSON value stored under the `rules` key of `Policy.content`.
A well-formed value is an array of rule mappings (`arr`); the other
constructors are the malformed shapes a client can store, since
`content` is an arbitrary JSON document. -/
inductive RulesVal where
  | arr : List Rule → RulesVal
  | strv : String → RulesVal
  | intv : Int → RulesVal
  | boolv : Bool → RulesVal
  | nullv : RulesVal
  | mapv : List String → RulesVal
deriving DecidableEq, Repr

/-- What `for i, rule in enumerate(rules)` followed by `rule.get("role")`
does to a non-array `rules` value: a number, boolean or `None` is not
iterable (`TypeError` at `enumerate`); iterating a non-empty string yields
characters and iterating a non-empty mapping yields its keys, and the
first `rule.get` call on such an element raises `AttributeError`; empty
iterables run the loop zero times. -/
def iterAsRules : RulesVal → Except PyError (List Rule)
  | RulesVal.arr rs => Except.ok rs
  | RulesVal.strv s => if s.isEmpty then Except.ok [] else Except.error PyError.attributeError
  | RulesVal.intv _ => Except.error PyError.typeError
  | RulesVal.boolv _ => Except.error PyError.typeError
  | RulesVal.nullv => Except.error PyError.typeError
  | RulesVal.mapv ks => if ks.isEmpty then Except.ok [] else Except.error PyError.attributeError

/-- `active_policy.content.get("rules", [])`: an absent `rules` key reads
as the empty array. -/
def getRulesVal (content : Option RulesVal) : RulesVal :=
  content.getD (RulesVal.arr [])

/-- Evaluation of the (possibly malformed) `rules` value of a policy
content: the loop either raises a Python error or produces the
first-match-wins decision and reason. -/
def evalRulesChecked (user_roles_list : List Value) (action : String) (resource : Dict)
    (rv : RulesVal) : Except PyError (Bool × String) :=
  match iterAsRules rv with
  | Except.error e => Except.error e
  | Except.ok rs => Except.ok (evalRules user_roles_list action resource rs)

/-! ## The store (SQLAlchemy rows as explicit lists) -/

/-- A row of the `roles` table. -/
structure RoleRow where
  id : Nat
  name : String
  description : Option String
deriving DecidableEq, Repr

/-- A row of the `policies` table.  `content` models the JSON document
through the only key the engine reads: `rules` (absent key = `none`).
The `created_at` timestamp is server-assigned and never read by the
engine, so it is not modelled. -/
structure PolicyRow where
  id : Nat
  name : String
  version : Nat
  content : Option RulesVal
  is_active : Bool
deriving DecidableEq, Repr

/-- A row of the `audit_logs` table (timestamp not modelled, never read). -/
structure AuditRow where
  id : Nat
  subject : String
  action : String
  resource : String
  decision : Bool
  explanation : String
deriving DecidableEq, Repr

/-- The persistent store: the three tables, the `role_inheritance`
association table as `(parent_id, child_id)` edges, and the
auto-increment counters (SQLite ids start at 1). -/
structure Store where
  roles : List RoleRow
  edges : List (Nat × Nat)
  policies : List PolicyRow
  auditLogs : List AuditRow
  nextRoleId : Nat
  nextPolicyId : Nat
  nextAuditId : Nat
deriving DecidableEq, Repr

/-- The empty store of a fresh database. -/
def initStore : Store :=
  { roles := [], edges := [], policies := [], auditLogs := []
    nextRoleId := 1, nextPolicyId := 1, nextAuditId := 1 }

/-- Process state: the module-level `ACTIVE_POLICY_CACHE` single slot
(`cache`) plus the store. -/
structure EngineState where
  cache : Option PolicyRow
  store : Store
deriving DecidableEq, Repr

/-- A fresh process over a fresh database. -/
def initState : EngineState := { cache := none, store := initStore }

/-! ## CRUD operations (`app/crud/crud.py`) -/

/-- `get_role_by_name`: `db.query(Role).filter(Role.name == name).first()`.
The looked-up name is a `Value` because `authorize_request` passes the raw
subject attribute; SQL `==` on the name column is Python equality. -/
def get_role_by_name (db : Store) (name : Value) : Option RoleRow :=
  db.roles.find? (fun r => pyEq (Value.str r.name) name)

/-- The `parents` relationship of a role: all roles `p` with an edge
`(parent_id = p.id, child_id = r.id)` in `role_inheritance`. -/
def parentsOf (db : Store) (r : RoleRow) : List RoleRow :=
  db.roles.filter (fun p => db.edges.any (fun e => e.1 = p.id && e.2 = r.id))

/-- `get_active_policy`: first policy row with `is_active == True`. -/
def get_active_policy (db : Store) : Option PolicyRow :=
  db.policies.find? (fun p => p.is_active)

/-- `create_audit_log`: add a row, commit, refresh (the refresh reads the
assigned auto-increment id). -/
def create_audit_log (db : Store) (subject action resource : String)
    (decision : Bool) (explanation : String) : AuditRow × Store :=
  let row : AuditRow :=
    { id := db.nextAuditId, subject := subject, action := action
      resource := resource, decision := decision, explanation := explanation }
  (row, { db with auditLogs := db.auditLogs ++ [row], nextAuditId := db.nextAuditId + 1 })

/-- The error kinds `create_role` raises (as `HTTPException`s). -/
inductive CrudError where
  | cycleDetected : CrudError
  | unknownParent : String → CrudError
  | conflict : CrudError
deriving DecidableEq, Repr

/-- The HTTP status code each `create_role` error surfaces as. -/
def CrudError.status : CrudError → Nat
  | CrudError.cycleDetected => 400
  | CrudError.unknownParent _ => 404
  | CrudError.conflict => 400

/-- Input of `create_role` (`schemas.RoleCreate`). -/
structure RoleCreate where
  name : String
  description : Option String
  parent_names : List String
deriving DecidableEq, Repr

/-- Resolution of the declared parent names, in order: the loop body of
`create_role` raises `404` at the first name with no role row, otherwise
collects the parent rows' ids. -/
def resolveParents (db : Store) : List String → Except String (List Nat)
  | [] => Except.ok []
  | n :: ns =>
    match get_role_by_name db (Value.str n) with
    | none => Except.error n
    | some p =>
      match resolveParents db ns with
      | Except.error m => Except.error m
      | Except.ok ids => Except.ok (p.id :: ids)

/-- `create_role`: reject a self-parent (`400`, cycle), then resolve the
declared parents in order (`404` on the first missing one), then
add-and-commit; the unique constraint on `roles.name` makes the commit
fail and roll back when the name already exists (`400`).  On any error the
session is rolled back or never flushed, so the store is returned as it
was. -/
def create_role (db : Store) (rc : RoleCreate) : Except CrudError RoleRow × Store :=
  if rc.name ∈ rc.parent_names then
    (Except.error CrudError.cycleDetected, db)
  else
    match resolveParents db rc.parent_names with
    | Except.error missing => (Except.error (CrudError.unknownParent missing), db)
    | Except.ok parentIds =>
      if db.roles.any (fun r => r.name = rc.name) then
        (Except.error CrudError.conflict, db)
      else
        let row : RoleRow := { id := db.nextRoleId, name := rc.name, description := rc.description }
        (Except.ok row,
          { db with
            roles := db.roles ++ [row]
            edges := db.edges ++ parentIds.map (fun pid => (pid, row.id))
            nextRoleId := db.nextRoleId + 1 })

/-- Input of `create_policy` (`schemas.PolicyCreate`); `content` is
modelled through its `rules` key. -/
structure PolicyCreate where
  name : String
  content : Option RulesVal
deriving DecidableEq, Repr

/-- `query(Policy).filter(name == ...).order_by(desc(version)).first()`:
the maximal version among rows with this name, if any. -/
def maxVersion (db : Store) (name : String) : Option Nat :=
  (db.policies.filter (fun p => p.name = name)).foldl
    (fun acc p =>
      match acc with
      | none => some p.version
      | some v => some (max v p.version))
    none

/-- `create_policy`: auto-versioning (`1 + `the highest existing version of
this name, or `1`), persisted with `is_active = False`. -/
def create_policy (db : Store) (pc : PolicyCreate) : PolicyRow × Store :=
  let new_version : Nat :=
    match maxVersion db pc.name with
    | none => 1
    | some v => v + 1
  let row : PolicyRow :=
    { id := db.nextPolicyId, name := pc.name, version := new_version
      content := pc.content, is_active := false }
  (row, { db with policies := db.policies ++ [row], nextPolicyId := db.nextPolicyId + 1 })

/-- The bulk update `query(Policy).filter(is_active == True).update(is_active: False)`. -/
def deactivateAll (ps : List PolicyRow) : List PolicyRow :=
  ps.map (fun p => if p.is_active then { p with is_active := false } else p)

/-- Setting `is_active = True` on the row returned by
`query(Policy).filter(id == policy_id).first()`: only the first row with
that id is mutated. -/
def setActiveFirst : List PolicyRow → Nat → List PolicyRow
  | [], _ => []
  | p :: ps, pid =>
    if p.id = pid then { p with is_active := true } :: ps
    else p :: setActiveFirst ps pid

/-- `activate_policy`: deactivate every active policy and COMMIT; then look
up the target by id; if present, activate it, commit, and install it in
`ACTIVE_POLICY_CACHE`; if absent, only log a warning and return `None`
(the earlier deactivation commit stands). -/
def activate_policy (st : EngineState) (policy_id : Nat) : Option PolicyRow × EngineState :=
  let ps1 := deactivateAll st.store.policies
  match ps1.find? (fun p => p.id = policy_id) with
  | none =>
    (none, { st with store := { st.store with policies := ps1 } })
  | some t =>
    let t' : PolicyRow := { t with is_active := true }
    (some t',
      { cache := some t'
        store := { st.store with policies := setActiveFirst ps1 policy_id } })

/-- `activate_policy_version_api` (`app/api/v1/routes/management.py`): call
`crud.activate_policy`; a `None` result surfaces as HTTP 404. -/
def activate_policy_version_api (st : EngineState) (policy_id : Nat) :
    Except Nat PolicyRow × EngineState :=
  let res := activate_policy st policy_id
  match res.1 with
  | none => (Except.error 404, res.2)
  | some p => (Except.ok p, res.2)

/-! ## The authorization service (`app/services/authorization.py`) -/

/-- `expand_roles`: `{name}` alone when `get_role_by_name` misses (the
looked-up value itself is returned); otherwise the Python set
`{role.name} ∪ {parent.name for the immediate parents}`, returned as a
deduplicated list. -/
def expand_roles (db : Store) (role_name : Value) : List Value :=
  match get_role_by_name db role_name with
  | none => [role_name]
  | some r =>
    (Value.str r.name :: (parentsOf db r).map (fun p => Value.str p.name)).dedup

/-- `request.subject.get("role", "guest")`: the stored value when the key
is present (whatever it is, including the empty string), else `"guest"`. -/
def authorizeUserRole (subject : Dict) : Value :=
  dictGetD subject "role" (Value.str "guest")

/-- An authorization request (`schemas.AuthRequest`). -/
structure AuthRequest where
  subject : Dict
  action : String
  resource : Dict
  dry_run : Bool
deriving DecidableEq, Repr

/-- An authorization response (`schemas.AuthResponse`). -/
structure AuthResponse where
  decision : Bool
  reason : String
  trace_id : Option Nat
deriving DecidableEq, Repr

/-- `authorize_request`: cache lookup (on miss, read the store and fill
the cache; with no active policy anywhere return the fixed System-Error
response without auditing), role expansion, rule evaluation (which can
raise on malformed `rules`), and — unless `dry_run` — one audit-log row
whose id is returned as `trace_id`.  A raised `PyError` propagates out of
the request after the cache fill but before any audit write. -/
def authorize_request (req : AuthRequest) (st : EngineState) :
    Except PyError AuthResponse × EngineState :=
  let lookup : Option PolicyRow × EngineState :=
    match st.cache with
    | some p => (some p, st)
    | none =>
      match get_active_policy st.store with
      | some p => (some p, { st with cache := some p })
      | none => (none, st)
  match lookup.1 with
  | none =>
    (Except.ok { decision := false, reason := noPolicyReason, trace_id := none }, lookup.2)
  | some active_policy =>
    let st1 := lookup.2
    let user_role := authorizeUserRole req.subject
    let user_roles_list := expand_roles st1.store user_role
    match evalRulesChecked user_roles_list req.action req.resource
        (getRulesVal active_policy.content) with
    | Except.error e => (Except.error e, st1)
    | Except.ok dr =>
      if req.dry_run then
        (Except.ok { decision := dr.1, reason := dr.2, trace_id := none }, st1)
      else
        let logged := create_audit_log st1.store (pyStrDict req.subject) req.action
          (pyStrDict req.resource) dr.1 dr.2
        (Except.ok { decision := dr.1, reason := dr.2, trace_id := some logged.1.id },
          { st1 with store := logged.2 })

/-! ## Operations for the whole-system invariant -/

/-- One state-mutating operation of the service, as reachable from the
API surface. -/
inductive Op where
  | createRole : RoleCreate → Op
  | createPolicy : PolicyCreate → Op
  | activatePolicy : Nat → Op
  | authorize : AuthRequest → Op
deriving Repr

/-- The state transition of one operation. -/
def step (st : EngineState) : Op → EngineState
  | Op.createRole rc => { st with store := (create_role st.store rc).2 }
  | Op.createPolicy pc => { st with store := (create_policy st.store pc).2 }
  | Op.activatePolicy pid => (activate_policy st pid).2
  | Op.authorize req => (authorize_request req st).2

/-- Number of policies with `is_active = true`. -/
def countActive (db : Store) : Nat :=
  (db.policies.filter (fun p => p.is_active)).length

/-! ## Spec-side evaluator (refinement target for the evaluation claims) -/

/-- Spec-side facet match, following the spec's words (§4.5): the role
facet matches when it equals `"*"` or a member of the expanded role set;
the action facet when it equals `"*"` or the request action; the
attribute facet per `check_abac_conditions`. -/
def specRuleMatches (expanded_roles : List String) (action : String) (resource : Dict)
    (r : Rule) : Bool :=
  (decide (r.role = Value.str "*") || expanded_roles.any (fun n => decide (r.role = Value.str n))) &&
  (decide (r.action = Value.str "*") || decide (r.action = Value.str action)) &&
  check_abac_conditions r.resource_match resource

/-- Spec-side evaluator, following the spec's words: find the first rule
(zero-based index) whose three facets match; on a match the decision is
whether the effect equals `"allow"` and the reason names the index and the
rule's role/action; otherwise implicit deny. -/
def specEvaluate (expanded_roles : List String) (action : String) (resource : Dict)
    (rules : List Rule) : Bool × String :=
  match rules.enum.find? (fun p => specRuleMatches expanded_roles action resource p.2) with
  | some p =>
    (decide (p.2.effect = Value.str "allow"),
      "Matched Rule #" ++ toString p.1 ++ " (Role: " ++ pyStr p.2.role ++
        ", Action: " ++ pyStr p.2.action ++ ").")
  | none => (false, "Implicit Deny: No matching rule found.")

/-! ## Helper lemmas -/

theorem pyEq_str_right (v : Value) (s : String) :
    pyEq v (Value.str s) = decide (v = Value.str s) := by
  cases v <;> simp [pyEq]

theorem pyEq_null_left (v : Value) : pyEq Value.null v = true ↔ v = Value.null := by
  cases v <;> simp [pyEq]

/-- The code-side single-rule match condition reached by the evaluator
loop, with the facets in the source's order. -/
def ruleMatchesV (user_roles_list : List Value) (action : String) (resource : Dict)
    (r : Rule) : Bool :=
  (user_roles_list.any (fun u => pyEq r.role u) || pyEq r.role (Value.str "*")) &&
  (pyEq r.action (Value.str action) || pyEq r.action (Value.str "*")) &&
  check_abac_conditions r.resource_match resource

theorem evalRulesFrom_cons (user_roles_list : List Value) (action : String) (resource : Dict)
    (i : Nat) (r : Rule) (rs : List Rule) :
    evalRulesFrom user_roles_list action resource i (r :: rs) =
      if ruleMatchesV user_roles_list action resource r then
        (pyEq r.effect (Value.str "allow"), matchedReason i r)
      else
        evalRulesFrom user_roles_list action resource (i + 1) rs := by
  cases hA : user_roles_list.any (fun u => pyEq r.role u) <;>
  cases hB : pyEq r.role (Value.str "*") <;>
  cases hC : pyEq r.action (Value.str action) <;>
  cases hD : pyEq r.action (Value.str "*") <;>
  cases hE : check_abac_conditions r.resource_match resource <;>
    simp [evalRulesFrom, ruleMatchesV, hA, hB, hC, hD, hE]

theorem any_pyEq_map (roles : List String) (v : Value) :
    (roles.map Value.str).any (fun u => pyEq v u) =
      roles.any (fun n => decide (v = Value.str n)) := by
  induction roles with
  | nil => rfl
  | cons n ns ih => simp only [List.map_cons, List.any_cons, pyEq_str_right, ih]

theorem ruleMatchesV_map_str (expanded_roles : List String) (action : String) (resource : Dict)
    (r : Rule) :
    ruleMatchesV (expanded_roles.map Value.str) action resource r =
      specRuleMatches expanded_roles action resource r := by
  unfold ruleMatchesV specRuleMatches
  rw [any_pyEq_map, pyEq_str_right, pyEq_str_right, pyEq_str_right]
  cases expanded_roles.any (fun n => decide (r.role = Value.str n)) <;>
  cases decide (r.role = Value.str "*") <;>
  cases decide (r.action = Value.str action) <;>
  cases decide (r.action = Value.str "*") <;>
    simp

theorem evalRulesFrom_eq_find (expanded_roles : List String) (action : String)
    (resource : Dict) (rules : List Rule) (i : Nat) :
    evalRulesFrom (expanded_roles.map Value.str) action resource i rules =
      match (rules.enumFrom i).find?
          (fun p => specRuleMatches expanded_roles action resource p.2) with
      | some p => (decide (p.2.effect = Value.str "allow"), matchedReason p.1 p.2)
      | none => (false, implicitDenyReason) := by
  induction rules generalizing i with
  | nil => simp [evalRulesFrom, List.enumFrom]
  | cons r rs ih =>
    rw [evalRulesFrom_cons, ruleMatchesV_map_str]
    cases h : specRuleMatches expanded_roles action resource r with
    | false => simp [List.enumFrom, List.find?, h, ih]
    | true => simp [List.enumFrom, List.find?, h, pyEq_str_right]

/-! ## Claim theorems -/

/-- C2 — The evaluator scans the rules in order and stops at the first
rule whose role facet (`"*"` or a member of the expanded role set), action
facet (`"*"` or the request action) and attribute facet all match; the
decision is true iff that rule's effect equals `"allow"`, with the reason
naming the zero-based index and the rule's role and action; with no match
the result is implicit deny. -/
theorem evaluation_first_match_wins (expanded_roles : List String) (action : String)
    (resource : Dict) (rules : List Rule) :
    evalRules (expanded_roles.map Value.str) action resource rules =
      specEvaluate expanded_roles action resource rules := by
  rw [evalRules, evalRulesFrom_eq_find, specEvaluate, List.enum]
  cases (rules.enumFrom 0).find? (fun p => specRuleMatches expanded_roles action resource p.2) with
  | none => rfl
  | some p => rfl

/-- C3 — With the cache slot empty and no active policy in the store,
`authorize_request` returns decision `false`, the exact System-Error
reason and `trace_id = None`, and leaves the state (cache, store, audit
log) untouched, dry-run or not. -/
theorem authorize_no_active_policy (req : AuthRequest) (st : EngineState)
    (hcache : st.cache = none) (hdb : get_active_policy st.store = none) :
    authorize_request req st =
      (Except.ok
        { decision := false, reason := "System Error: No active policy found."
          trace_id := none }, st) := by
  simp [authorize_request, hcache, hdb, noPolicyReason]

/-- Witness for C3 at a concrete request over the fresh state. -/
theorem authorize_no_active_policy_witness :
    initState.cache = none ∧
    get_active_policy initState.store = none ∧
    authorize_request { subject := [], action := "read", resource := [], dry_run := false }
        initState =
      (Except.ok
        { decision := false, reason := "System Error: No active policy found."
          trace_id := none }, initState) :=
  ⟨rfl, rfl,
    authorize_no_active_policy
      { subject := [], action := "read", resource := [], dry_run := false }
      initState rfl rfl⟩

/-- C4 — Role expansion of a name yields exactly the name itself when no
role row with that name exists, and otherwise exactly the name together
with the names of its immediate parents: nothing reachable through two or
more parent hops is included. -/
theorem expand_roles_one_hop (db : Store) (name : String) (x : Value) :
    x ∈ expand_roles db (Value.str name) ↔
      (x = Value.str name ∨
        ∃ r, get_role_by_name db (Value.str name) = some r ∧
          ∃ p, p ∈ parentsOf db r ∧ x = Value.str p.name) := by
  cases h : get_role_by_name db (Value.str name) with
  | none => simp [expand_roles, h]
  | some r =>
    have hname : r.name = name := by
      have hp := List.find?_some h
      simpa [pyEq] using hp
    simp only [expand_roles, h, List.mem_dedup, List.mem_cons, List.mem_map, hname,
      Option.some.injEq]
    constructor
    · rintro (rfl | ⟨p, hp, rfl⟩)
      · exact Or.inl rfl
      · exact Or.inr ⟨r, rfl, p, hp, rfl⟩
    · rintro (rfl | ⟨r', rfl, p, hp, rfl⟩)
      · exact Or.inl rfl
      · exact Or.inr ⟨p, hp, rfl⟩

theorem pyEq_getD_null (resource : Dict) (k : String) (v : Value) :
    pyEq (dictGetD resource k Value.null) v = true ↔
      ((∃ w, dictLookup resource k = some w ∧ pyEq w v = true) ∨
        (v = Value.null ∧ dictLookup resource k = none)) := by
  cases h : dictLookup resource k with
  | none => simp [dictGetD, h, pyEq_null_left]
  | some w => simp [dictGetD, h]

/-- C8 (counterexample to the claim as stated) — a rule requiring
`{"k": null}` matches a resource with no key `"k"` at all: Python's
`.get` returns `None` for the missing key and `None == None` holds, so a
missing key does not always fail the match. -/
theorem abac_missing_key_matches_null :
    dictLookup ([] : Dict) "k" = none ∧
    check_abac_conditions [("k", Value.null)] ([] : Dict) = true := by
  exact ⟨rfl, rfl⟩

/-- C8 (amended) — the attribute facet matches iff the condition map is
empty (absent `resource_match` reads as empty) or every required pair
`(k, v)` is satisfied, where a pair is satisfied when the resource maps
`k` to a value Python-equal to `v`, or when `v` is `null` and `k` is
missing from the resource (missing keys read as `None`). -/
theorem check_abac_characterization (conds resource : Dict) :
    check_abac_conditions conds resource = true ↔
      (conds = ([] : Dict) ∨
        ∀ kv ∈ conds,
          (∃ w, dictLookup resource kv.1 = some w ∧ pyEq w kv.2 = true) ∨
          (kv.2 = Value.null ∧ dictLookup resource kv.1 = none)) := by
  by_cases h : conds = ([] : Dict)
  · simp [check_abac_conditions, h]
  · simp only [check_abac_conditions, h, if_false, List.all_eq_true, false_or, decide_eq_true_eq]
    constructor
    · intro hall kv hkv
      exact (pyEq_getD_null resource kv.1 kv.2).mp (hall kv hkv)
    · intro hall kv hkv
      exact (pyEq_getD_null resource kv.1 kv.2).mpr (hall kv hkv)

theorem create_role_policies_unchanged (db : Store) (rc : RoleCreate) :
    ((create_role db rc).2).policies = db.policies := by
  by_cases h1 : rc.name ∈ rc.parent_names
  · simp [create_role, h1]
  · cases h2 : resolveParents db rc.parent_names with
    | error m => simp [create_role, h1, h2]
    | ok ids =>
      by_cases h3 : db.roles.any (fun r => r.name = rc.name)
      · simp [create_role, h1, h2, h3]
      · simp [create_role, h1, h2, h3]

/-- C10 — whenever `create_role` raises (self-parent cycle, unknown
parent, or duplicate name at commit), the store it leaves behind is
exactly the store it was given: no role row and no inheritance edge is
persisted. -/
theorem create_role_error_frame (db : Store) (rc : RoleCreate) (e : CrudError)
    (h : (create_role db rc).1 = Except.error e) :
    (create_role db rc).2 = db := by
  by_cases h1 : rc.name ∈ rc.parent_names
  · simp [create_role, h1]
  · cases h2 : resolveParents db rc.parent_names with
    | error m => simp [create_role, h1, h2]
    | ok ids =>
      by_cases h3 : db.roles.any (fun r => r.name = rc.name)
      · simp [create_role, h1, h2, h3]
      · exfalso
        simp [create_role, h1, h2, h3] at h

/-- Witness for C10: creating a role that lists itself as a parent fails
with the cycle error and leaves the fresh store untouched. -/
theorem create_role_error_frame_witness :
    (create_role initStore
        { name := "a", description := none, parent_names := ["a"] }).1 =
      Except.error CrudError.cycleDetected ∧
    (create_role initStore
        { name := "a", description := none, parent_names := ["a"] }).2 = initStore :=
  ⟨rfl,
    create_role_error_frame initStore
      { name := "a", description := none, parent_names := ["a"] }
      CrudError.cycleDetected rfl⟩

theorem countActive_create_policy (db : Store) (pc : PolicyCreate) :
    countActive (create_policy db pc).2 = countActive db := by
  simp [create_policy, countActive, List.filter_append]

theorem deactivateAll_inactive (ps : List PolicyRow) :
    ∀ p ∈ deactivateAll ps, p.is_active = false := by
  intro p hp
  simp only [deactivateAll, List.mem_map] at hp
  obtain ⟨q, _, rfl⟩ := hp
  by_cases h : q.is_active <;> simp [h]

theorem filter_active_nil (ps : List PolicyRow) (h : ∀ p ∈ ps, p.is_active = false) :
    ps.filter (fun p => p.is_active) = [] := by
  rw [List.filter_eq_nil_iff]
  intro p hp
  simp [h p hp]

theorem length_filter_setActiveFirst (ps : List PolicyRow) (pid : Nat)
    (h : ∀ p ∈ ps, p.is_active = false) :
    ((setActiveFirst ps pid).filter (fun p => p.is_active)).length ≤ 1 := by
  induction ps with
  | nil => simp [setActiveFirst]
  | cons p ps ih =>
    have htail : ∀ q ∈ ps, q.is_active = false :=
      fun q hq => h q (List.mem_cons_of_mem _ hq)
    by_cases hid : p.id = pid
    · simp [setActiveFirst, hid, List.filter_cons, filter_active_nil ps htail]
    · have hp : p.is_active = false := h p (List.mem_cons_self _ _)
      simpa [setActiveFirst, hid, List.filter_cons, hp] using ih htail

theorem countActive_activate (st : EngineState) (pid : Nat) :
    countActive ((activate_policy st pid).2).store ≤ 1 := by
  unfold activate_policy
  cases hfind : (deactivateAll st.store.policies).find? (fun p => p.id = pid) with
  | none =>
    simp [hfind, countActive, filter_active_nil _ (deactivateAll_inactive st.store.policies)]
  | some t =>
    simpa [hfind, countActive] using
      length_filter_setActiveFirst (deactivateAll st.store.policies) pid
        (deactivateAll_inactive st.store.policies)

theorem authorize_policies_unchanged (req : AuthRequest) (st : EngineState) :
    ((authorize_request req st).2).store.policies = st.store.policies := by
  cases hc : st.cache with
  | some p =>
    simp only [authorize_request, hc]
    cases he : evalRulesChecked (expand_roles st.store (authorizeUserRole req.subject))
        req.action req.resource (getRulesVal p.content) with
    | error e => simp [he]
    | ok dr => by_cases hd : req.dry_run <;> simp [he, hd, create_audit_log]
  | none =>
    cases hg : get_active_policy st.store with
    | none => simp [authorize_request, hc, hg]
    | some p =>
      simp only [authorize_request, hc, hg]
      cases he : evalRulesChecked (expand_roles st.store (authorizeUserRole req.subject))
          req.action req.resource (getRulesVal p.content) with
      | error e => simp [he]
      | ok dr => by_cases hd : req.dry_run <;> simp [he, hd, create_audit_log]

theorem step_preserves_at_most_one (st : EngineState) (op : Op)
    (h : countActive st.store ≤ 1) : countActive ((step st op).store) ≤ 1 := by
  cases op with
  | createRole rc =>
    simpa [step, countActive, create_role_policies_unchanged] using h
  | createPolicy pc =>
    simpa [step, countActive_create_policy st.store pc] using h
  | activatePolicy pid => exact countActive_activate st pid
  | authorize req =>
    have hp := authorize_policies_unchanged req st
    simpa [step, countActive, hp] using h

/-- C5 — in every state reachable from the fresh system by any sequence of
operations (role creation, policy creation, policy activation,
authorization), at most one policy row has `is_active = true`:
`create_policy` persists inactive rows, `activate_policy` deactivates all
active rows before activating at most one target, and no other operation
writes the flag. -/
theorem at_most_one_active_policy (ops : List Op) :
    countActive ((List.foldl step initState ops).store) ≤ 1 := by
  have aux : ∀ (l : List Op) (st : EngineState), countActive st.store ≤ 1 →
      countActive ((List.foldl step st l).store) ≤ 1 := by
    intro l
    induction l with
    | nil => intro st h; simpa using h
    | cons op l ih =>
      intro st h
      exact ih (step st op) (step_preserves_at_most_one st op h)
  exact aux ops initState (by decide)

/-- C9 — for a request that completes while a policy is held (in the cache
slot or active in the store): with `dry_run = true` the trace id is `None`
and the audit-log table is unchanged; with `dry_run = false` exactly one
row is appended (carrying the request's rendered fields and the computed
decision/reason) and the returned trace id is that new row's id. -/
theorem authorize_audit (req : AuthRequest) (st : EngineState) (resp : AuthResponse)
    (st' : EngineState)
    (hpolicy : ¬ (st.cache = none ∧ get_active_policy st.store = none))
    (h : authorize_request req st = (Except.ok resp, st')) :
    (req.dry_run = true →
      resp.trace_id = none ∧ st'.store.auditLogs = st.store.auditLogs) ∧
    (req.dry_run = false →
      st'.store.auditLogs = st.store.auditLogs ++
        [{ id := st.store.nextAuditId
           subject := pyStrDict req.subject, action := req.action
           resource := pyStrDict req.resource, decision := resp.decision
           explanation := resp.reason }] ∧
      resp.trace_id = some st.store.nextAuditId) := by
  cases hc : st.cache with
  | some p =>
    simp only [authorize_request, hc] at h
    cases he : evalRulesChecked (expand_roles st.store (authorizeUserRole req.subject))
        req.action req.resource (getRulesVal p.content) with
    | error e => simp [he] at h
    | ok dr =>
      cases hd : req.dry_run with
      | true =>
        simp only [he, hd, if_true] at h
        obtain ⟨hresp, hst⟩ := Prod.mk.injEq .. ▸ h
        cases Except.ok.inj hresp
        subst hst
        simp
      | false =>
        simp only [he, hd, if_false, create_audit_log] at h
        obtain ⟨hresp, hst⟩ := Prod.mk.injEq .. ▸ h
        cases Except.ok.inj hresp
        subst hst
        simp
  | none =>
    cases hg : get_active_policy st.store with
    | none => exact absurd ⟨hc, hg⟩ hpolicy
    | some p =>
      simp only [authorize_request, hc, hg] at h
      cases he : evalRulesChecked (expand_roles st.store (authorizeUserRole req.subject))
          req.action req.resource (getRulesVal p.content) with
      | error e => simp [he] at h
      | ok dr =>
        cases hd : req.dry_run with
        | true =>
          simp only [he, hd, if_true] at h
          obtain ⟨hresp, hst⟩ := Prod.mk.injEq .. ▸ h
          cases Except.ok.inj hresp
          subst hst
          simp
        | false =>
          simp only [he, hd, if_false, create_audit_log] at h
          obtain ⟨hresp, hst⟩ := Prod.mk.injEq .. ▸ h
          cases Except.ok.inj hresp
          subst hst
          simp

/-- An active policy row with an empty rule array, for concrete runs. -/
def c9Policy : PolicyRow :=
  { id := 1, name := "p", version := 1, content := some (RulesVal.arr []), is_active := true }

/-- A state holding `c9Policy` active, cache cold. -/
def c9State : EngineState :=
  { cache := none, store := { initStore with policies := [c9Policy], nextPolicyId := 2 } }

/-- A concrete non-dry-run request. -/
def c9Req : AuthRequest := { subject := [], action := "read", resource := [], dry_run := false }

/-- The response `c9Req` gets over `c9State`. -/
def c9Resp : AuthResponse :=
  { decision := false, reason := implicitDenyReason, trace_id := some 1 }

/-- The audit row written for `c9Req` over `c9State`. -/
def c9Row : AuditRow :=
  { id := 1, subject := pyStrDict [], action := "read", resource := pyStrDict []
    decision := false, explanation := implicitDenyReason }

/-- The state after `c9Req` over `c9State`: cache filled, one audit row. -/
def c9StateAfter : EngineState :=
  { cache := some c9Policy
    store := { initStore with
      policies := [c9Policy], nextPolicyId := 2, auditLogs := [c9Row], nextAuditId := 2 } }

/-- Witness for C9 at a concrete non-dry-run request over a store with one
active policy: exactly one row (id 1) is appended and returned. -/
theorem authorize_audit_witness :
    (¬ (c9State.cache = none ∧ get_active_policy c9State.store = none)) ∧
    authorize_request c9Req c9State = (Except.ok c9Resp, c9StateAfter) ∧
    (c9StateAfter.store.auditLogs = c9State.store.auditLogs ++
      [{ id := c9State.store.nextAuditId
         subject := pyStrDict c9Req.subject, action := c9Req.action
         resource := pyStrDict c9Req.resource, decision := c9Resp.decision
         explanation := c9Resp.reason }] ∧
      c9Resp.trace_id = some c9State.store.nextAuditId) :=
  ⟨by decide, by decide,
    (authorize_audit c9Req c9State c9Resp c9StateAfter (by decide) (by decide)).2 rfl⟩

/-- A lone active policy, for the failed-activation run. -/
def c1State : EngineState :=
  { cache := none
    store := { initStore with
      policies := [{ id := 1, name := "p", version := 1, content := none, is_active := true }]
      nextPolicyId := 2 } }

/-- C1 (the code at the failing input) — activating a nonexistent policy
id over a store whose policy 1 is active does surface 404, but the store
is NOT left unchanged: policy 1 has been deactivated and committed before
the target lookup, leaving no active policy at all. -/
theorem activate_missing_id_clears_active :
    (activate_policy_version_api c1State 2).1 = Except.error 404 ∧
    ((activate_policy_version_api c1State 2).2).store.policies =
      [{ id := 1, name := "p", version := 1, content := none, is_active := false }] ∧
    get_active_policy ((activate_policy_version_api c1State 2).2).store = none := by
  exact ⟨rfl, rfl, rfl⟩

/-- C6 (counterexample to the claim as stated) — an active policy whose
`content.rules` is the number 5 does not evaluate to implicit deny: the
loop raises `TypeError` (`enumerate` of a non-iterable). -/
theorem rules_number_raises_type_error :
    evalRulesChecked [Value.str "guest"] "read" ([] : Dict) (RulesVal.intv 5) =
      Except.error PyError.typeError ∧
    evalRulesChecked [Value.str "guest"] "read" ([] : Dict) (RulesVal.intv 5) ≠
      Except.ok (false, "Implicit Deny: No matching rule found.") := by
  decide

/-- C6 (amended) — only an ABSENT `content.rules` key is treated as an
empty sequence; a present non-sequence value is not coerced: a number,
boolean or null raises `TypeError`, a non-empty string or non-empty
mapping raises `AttributeError` when its first element is treated as a
rule, and only the empty string and the empty mapping degrade to the
empty-sequence (implicit-deny) behaviour. -/
theorem rules_value_tolerance (user_roles_list : List Value) (action : String)
    (resource : Dict) :
    (evalRulesChecked user_roles_list action resource (getRulesVal none) =
      Except.ok (evalRules user_roles_list action resource [])) ∧
    (∀ n : Int, evalRulesChecked user_roles_list action resource (RulesVal.intv n) =
      Except.error PyError.typeError) ∧
    (∀ b : Bool, evalRulesChecked user_roles_list action resource (RulesVal.boolv b) =
      Except.error PyError.typeError) ∧
    (evalRulesChecked user_roles_list action resource RulesVal.nullv =
      Except.error PyError.typeError) ∧
    (∀ s : String, evalRulesChecked user_roles_list action resource (RulesVal.strv s) =
      if s.isEmpty then Except.ok (evalRules user_roles_list action resource [])
      else Except.error PyError.attributeError) ∧
    (∀ ks : List String, evalRulesChecked user_roles_list action resource (RulesVal.mapv ks) =
      if ks.isEmpty then Except.ok (evalRules user_roles_list action resource [])
      else Except.error PyError.attributeError) := by
  refine ⟨rfl, fun n => rfl, fun b => rfl, rfl, fun s => ?_, fun ks => ?_⟩
  · by_cases hs : s.isEmpty <;> simp [evalRulesChecked, iterAsRules, hs]
  · by_cases hk : ks.isEmpty <;> simp [evalRulesChecked, iterAsRules, hk]

/-- C7 (amended) — the `"guest"` default applies exactly when the subject
mapping LACKS the key `"role"`; the expansion inside `authorize_request`
is then computed for `"guest"`. -/
theorem missing_role_defaults_to_guest (subject : Dict) (db : Store)
    (h : dictLookup subject "role" = none) :
    authorizeUserRole subject = Value.str "guest" ∧
    expand_roles db (authorizeUserRole subject) = expand_roles db (Value.str "guest") := by
  have hrole : authorizeUserRole subject = Value.str "guest" := by
    simp [authorizeUserRole, dictGetD, h]
  exact ⟨hrole, by rw [hrole]⟩

/-- Witness for C7 (amended) on the empty subject map. -/
theorem missing_role_defaults_to_guest_witness :
    dictLookup ([] : Dict) "role" = none ∧
    (authorizeUserRole ([] : Dict) = Value.str "guest" ∧
      expand_roles initStore (authorizeUserRole ([] : Dict)) =
        expand_roles initStore (Value.str "guest")) :=
  ⟨rfl, missing_role_defaults_to_guest ([] : Dict) initStore rfl⟩

/-- The rule allowing role `guest` on any action. -/
def c7Rule : Rule :=
  { role := Value.str "guest", action := Value.str "*", effect := Value.str "allow"
    resource_match := [] }

/-- A state whose active policy allows role `guest` on any action. -/
def c7State : EngineState :=
  { cache := none
    store := { initStore with
      policies := [{ id := 1, name := "p", version := 1
                     content := some (RulesVal.arr [c7Rule]), is_active := true }]
      nextPolicyId := 2 } }

/-- A dry-run request whose subject maps `role` to the EMPTY string. -/
def c7Req : AuthRequest :=
  { subject := [("role", Value.str "")], action := "read", resource := [], dry_run := true }

/-- C7 (counterexample to the claim as stated) — a subject with
`role = ""` is NOT evaluated as `"guest"`: the code takes the stored value
as-is, so the guest-allow rule does not match and the request is denied,
whereas the same request with `role = "guest"` is allowed by rule #0. -/
theorem empty_role_not_guest :
    authorizeUserRole c7Req.subject = Value.str "" ∧
    (authorize_request c7Req c7State).1 =
      Except.ok
        { decision := false, reason := "Implicit Deny: No matching rule found."
          trace_id := none } ∧
    (authorize_request { c7Req with subject := [("role", Value.str "guest")] } c7State).1 =
      Except.ok
        { decision := true, reason := "Matched Rule #0 (Role: guest, Action: *)."
          trace_id := none } := by
  decide

end PermissionsAsData
